import Mathlib

/-!
# smtp-client: a shallow embedding of `main.go`

The Go program composes one mail (`Mail.BuildMessage`), validates the
command-line values (`initConfig`) and drives one SMTP session (`run`).

* Go `string` values are Lean `String`s; `len(s) == 0` is `s.length == 0`.
* A Go `error` is `Option GoError`: `none` is `nil`.
* `run` talks to the network through library calls.  Each call the source
  makes is an `Op`; the environment (`World`) decides, from everything that
  happened so far, whether a call fails.  `run` returns the error it hands
  back together with the trace of calls it issued, each with its outcome.
-/

namespace SmtpClient

/-! ## Data model (main.go, lines 14-35) -/

/-- Mail holds structured email data. -/
structure Mail where
  senderID : String
  toIds : List String
  subject : String
  body : String
deriving DecidableEq, Repr

/-- SMTPServer holds host and port. -/
structure SMTPServer where
  Host : String
  Port : String
deriving DecidableEq, Repr

/-- Config holds server address and authentication details. -/
structure Config where
  AuthUser : String
  AuthPassword : String
  SMTPServer : SMTPServer
deriving DecidableEq, Repr

/-- The values `initConfig` and `run` read from the `cli.Context`:
`c.String(..)`, `c.StringSlice("recipients")` and `c.Bool("ssl")`. -/
structure Context where
  host : String
  port : String
  user : String
  password : String
  ssl : Bool
  recipients : List String
  sender : String
  subject : String
  body : String
deriving DecidableEq, Repr

/-- The message of a non-nil Go `error`. -/
abbrev GoError := String

/-! ## Pure functions -/

/-- ServerName returns host port concatenated string (main.go, lines 38-40). -/
def SMTPServer.ServerName (s : SMTPServer) : String :=
  s.Host ++ ":" ++ s.Port

/-- Go `strings.Join(elems, sep)`. -/
def stringsJoin (elems : List String) (sep : String) : String :=
  sep.intercalate elems

/-- BuildMessage returns SMTP Message Body (main.go, lines 43-54). -/
def Mail.BuildMessage (mail : Mail) : String :=
  let message := ""
  let message := message ++ ("From: " ++ mail.senderID ++ "\r\n")
  let message :=
    if mail.toIds.length > 0 then
      message ++ ("To: " ++ stringsJoin mail.toIds ";" ++ "\r\n")
    else message
  let message := message ++ ("Subject: " ++ mail.subject ++ "\r\n")
  let message := message ++ ("\r\n" ++ mail.body)
  message

/-- Validation and construction of `Config` and `Mail` (main.go, lines
114-144).  The first test reads `Host` twice, as the source does. -/
def initConfig (c : Context) : Except GoError (Config × Mail) :=
  let cfg : Config :=
    { AuthUser := c.user
      AuthPassword := c.password
      SMTPServer := { Host := c.host, Port := c.port } }
  if cfg.AuthUser.length == 0 || cfg.SMTPServer.Host.length == 0
      || cfg.SMTPServer.Host.length == 0 then
    Except.error "SMTP Server host, port and username required"
  else
    let mail : Mail :=
      { toIds := c.recipients
        senderID := c.sender
        subject := c.subject
        body := c.body }
    if mail.toIds.length < 1 || mail.subject.length == 0 || mail.body.length == 0 then
      Except.error "At least one recipient is required and subject/body can't be empty"
    else
      let mail := if mail.senderID.length == 0 then { mail with senderID := cfg.AuthUser } else mail
      Except.ok (cfg, mail)

/-! ## The session: calls, outcomes, traces -/

/-- Go `tls.Config{ServerName: ..}`. -/
structure TLSConfig where
  ServerName : String
deriving DecidableEq, Repr

/-- Go `smtp.PlainAuth(identity, username, password, host)`. -/
structure PlainAuth where
  identity : String
  username : String
  password : String
  host : String
deriving DecidableEq, Repr

/-- The calls `run` makes, in the order of their first appearance in the
source (main.go, lines 146-214). -/
inductive Op where
  /-- Library call `cli.ShowAppHelp(c)`. -/
  | showAppHelp
  /-- Library call `fmt.Printf(format, arg)`. -/
  | printf (format : String) (arg : String)
  /-- Library call `tls.Dial(network, addr, config)`. -/
  | tlsDial (network : String) (addr : String) (config : TLSConfig)
  /-- Library call `smtp.NewClient(conn, host)`. -/
  | newClient (host : String)
  /-- Library call `smtp.Dial(addr)`. -/
  | smtpDial (addr : String)
  /-- Method `client.StartTLS(config)`. -/
  | startTLS (config : TLSConfig)
  /-- Method `client.Auth(a)`. -/
  | auth (a : PlainAuth)
  /-- Method `client.Mail(from)`. -/
  | mail (sender : String)
  /-- Method `client.Rcpt(to)`. -/
  | rcpt (addr : String)
  /-- Method `client.Data()`. -/
  | data
  /-- Method `w.Write(p)` on the data writer. -/
  | write (p : String)
  /-- Method `w.Close()` on the data writer: the end-of-data marker. -/
  | closeWriter
  /-- Method `client.Quit()`. -/
  | quit
  /-- Method `client.Close()`; `run` never calls it. -/
  | closeClient
  /-- Library call `log.Println(line)`. -/
  | logPrintln (line : String)
deriving DecidableEq, Repr

/-- One issued call together with the error it returned. -/
structure Event where
  op : Op
  err : Option GoError
deriving DecidableEq, Repr

/-- The environment: given the events so far and the next call, the error
that call returns (`none` for success). -/
abbrev World := List Event → Op → Option GoError

/-- Issue a call: ask the world for its outcome and record the event. -/
def call (w : World) (tr : List Event) (op : Op) : Option GoError × List Event :=
  let r := w tr op
  (r, tr ++ [{ op := op, err := r }])

/-- The loop `for _, k := range mail.toIds` of `run` (main.go, lines
188-192): one `Rcpt` per address, returning at the first error. -/
def rcptLoop (w : World) : List String → List Event → Option GoError × List Event
  | [], tr => (none, tr)
  | k :: ks, tr =>
    match call w tr (Op.rcpt k) with
    | (some err, tr) => (some err, tr)
    | (none, tr) => rcptLoop w ks tr

/-- The part of `run` after the client exists (main.go, lines 179-213). -/
def sendMail (w : World) (auth : PlainAuth) (mail : Mail) (tr : List Event) :
    Option GoError × List Event :=
  -- step 1: Use Auth
  match call w tr (Op.auth auth) with
  | (some err, tr) => (some err, tr)
  | (none, tr) =>
  -- step 2: add all from and to
  match call w tr (Op.mail mail.senderID) with
  | (some err, tr) => (some err, tr)
  | (none, tr) =>
  match rcptLoop w mail.toIds tr with
  | (some err, tr) => (some err, tr)
  | (none, tr) =>
  -- step 3: Send data
  match call w tr Op.data with
  | (some err, tr) => (some err, tr)
  | (none, tr) =>
  match call w tr (Op.write mail.BuildMessage) with
  | (some err, tr) => (some err, tr)
  | (none, tr) =>
  match call w tr Op.closeWriter with
  | (some err, tr) => (some err, tr)
  | (none, tr) =>
  let (_, tr) := call w tr Op.quit
  let (_, tr) := call w tr (Op.logPrintln "Mail sent successfully")
  (none, tr)

/-- The action of the command (main.go, lines 146-214): the returned error
and the trace of the calls issued. -/
def run (c : Context) (w : World) : Option GoError × List Event :=
  match initConfig c with
  | Except.error err =>
    let (_, tr) := call w [] Op.showAppHelp
    (some err, tr)
  | Except.ok (cfg, mail) =>
    let tlsConfig : TLSConfig := { ServerName := cfg.SMTPServer.Host }
    -- build an auth
    let auth : PlainAuth :=
      { identity := "", username := cfg.AuthUser,
        password := cfg.AuthPassword, host := cfg.SMTPServer.Host }
    -- Connect to SMTP server
    if c.ssl then
      let (_, tr) := call w [] (Op.printf "Using SSL/TLS on port %q\n" cfg.SMTPServer.Port)
      match call w tr (Op.tlsDial "tcp" cfg.SMTPServer.ServerName tlsConfig) with
      | (some err, tr) => (some err, tr)
      | (none, tr) =>
      match call w tr (Op.newClient cfg.SMTPServer.Host) with
      | (some err, tr) => (some err, tr)
      | (none, tr) => sendMail w auth mail tr
    else
      let (_, tr) := call w [] (Op.printf "Using STARTTLS on port %q\n" cfg.SMTPServer.Port)
      match call w tr (Op.smtpDial cfg.SMTPServer.ServerName) with
      | (some err, tr) => (some err, tr)
      | (none, tr) =>
      -- the error returned by StartTLS is dropped
      let (_, tr) := call w tr (Op.startTLS tlsConfig)
      sendMail w auth mail tr

/-! ## Worlds used in examples -/

/-- The world in which every call succeeds. -/
def allOk : World := fun _ _ => none

/-- The world in which exactly the calls satisfying `bad` fail with `msg`. -/
def failOn (bad : Op → Bool) (msg : GoError) : World :=
  fun _ op => if bad op then some msg else none

/-- Whether a call is `client.StartTLS`. -/
def isStartTLS : Op → Bool
  | Op.startTLS _ => true
  | _ => false

/-- Whether a call is `client.Auth`. -/
def isAuth : Op → Bool
  | Op.auth _ => true
  | _ => false

/-- Whether a call is `client.Mail`. -/
def isMail : Op → Bool
  | Op.mail _ => true
  | _ => false

/-- Whether a call is `client.Rcpt` for the address `k`. -/
def isRcptOf (k : String) : Op → Bool
  | Op.rcpt a => a == k
  | _ => false

/-- An event after which the channel is encrypted: a TLS dial or a STARTTLS
upgrade that returned no error. -/
def encryptionEstablished (ev : Event) : Bool :=
  match ev.op, ev.err with
  | Op.tlsDial _ _ _, none => true
  | Op.startTLS _, none => true
  | _, _ => false

/-- An event after which a transport connection is open: a dial that
returned no error. -/
def connectionOpened (ev : Event) : Bool :=
  match ev.op, ev.err with
  | Op.tlsDial _ _ _, none => true
  | Op.smtpDial _, none => true
  | _, _ => false

/-- Whether an event is one at which a Quit or a Close is issued on the
connection: a `client.Quit` or `client.Close` called by `run`, and also a
`client.Auth` or an `smtp.NewClient` that returned an error, since net/smtp
itself quits or closes the connection inside these two calls when they fail.
The other calls of `run` leave the connection as it is when they fail. -/
def closesConnection (ev : Event) : Bool :=
  match ev.op, ev.err with
  | Op.quit, _ => true
  | Op.closeClient, _ => true
  | Op.auth _, some _ => true
  | Op.newClient _, some _ => true
  | _, _ => false

/-- Whether an event is an `Auth` that the server accepted. -/
def authAccepted (ev : Event) : Bool :=
  match ev.op, ev.err with
  | Op.auth _, none => true
  | _, _ => false

/-- Whether every `Auth` in a trace comes after an event that established
encryption; `enc` tells whether one has been seen already. -/
def authOnlyAfterEncryption : Bool → List Event → Bool
  | _, [] => true
  | enc, ev :: rest =>
    (if isAuth ev.op then enc else true)
      && authOnlyAfterEncryption (enc || encryptionEstablished ev) rest

/-- The addresses of the `Rcpt` calls of a trace, in order. -/
def rcptArgs (tr : List Event) : List String :=
  tr.filterMap fun ev =>
    match ev.op with
    | Op.rcpt k => some k
    | _ => none

/-- A server whose STARTTLS upgrade fails; every other call succeeds. -/
def startTLSFails : World := failOn isStartTLS "x509: certificate signed by unknown authority"

/-- A server that rejects the sender; every other call succeeds. -/
def mailRejected : World := failOn isMail "550 sender rejected"

/-- A server that rejects the recipient `b`; every other call succeeds. -/
def rcptRejected : World := failOn (isRcptOf "b") "550 no such user"

/-- The scenario of the specification. -/
def exampleContext : Context :=
  { host := "smtp.example.com", port := "587", user := "alice", password := "secret",
    ssl := false, recipients := ["bob@example.com"], sender := "", subject := "Hi",
    body := "Hello" }

/-- The scenario with the port flag given as the empty string. -/
def emptyPortContext : Context := { exampleContext with port := "" }

/-- The scenario with three recipients. -/
def threeRecipients : Context := { exampleContext with recipients := ["a", "b", "c"] }

/-- The scenario without any recipient. -/
def noRecipients : Context := { exampleContext with recipients := [] }

/-- The mail of that scenario once the sender has been resolved. -/
def exampleMail : Mail :=
  { senderID := "alice", toIds := ["bob@example.com"], subject := "Hi", body := "Hello" }

/-! ## Reading a composed message back: lines and headers -/

/-- Put a character in front of the first segment. -/
def consHead (c : Char) : List (List Char) → List (List Char)
  | [] => [[c]]
  | l :: ls => (c :: l) :: ls

/-- Cut a text at every CRLF, scanning from the left.  Every segment but the
last was terminated by a CRLF; the last one is what follows the final CRLF. -/
def splitCRLF : List Char → List (List Char)
  | [] => [[]]
  | [c] => [[c]]
  | c :: d :: rest =>
    if c = '\r' ∧ d = '\n' then [] :: splitCRLF rest
    else consHead c (splitCRLF (d :: rest))

/-- The header section of a message: its CRLF-terminated lines before the
first empty one. -/
def headerLines (msg : String) : List String :=
  (((splitCRLF msg.data).dropLast).takeWhile (fun l => !l.isEmpty)).map String.mk

/-- Whether a line starts with `To:`. -/
def startsWithTo (line : String) : Bool :=
  line.data.take 3 == ['T', 'o', ':']

/-- Whether a text contains a CR immediately followed by an LF. -/
def hasCRLF : List Char → Bool
  | [] => false
  | c :: rest => (c == '\r' && rest.head? == some '\n') || hasCRLF rest

/-- A mail whose sender carries a line break and a second header. -/
def injectedMail : Mail :=
  { senderID := "x\r\nTo: evil@example.com", toIds := ["bob@example.com"],
    subject := "Hi", body := "Hello" }

/-! ## The shapes a trace of the session can take -/

/-- A `Rcpt` call for `k` that the server accepted. -/
def okRcpt (k : String) : Event := { op := Op.rcpt k, err := none }

/-- The credentials `run` builds with `smtp.PlainAuth`. -/
def authOf (cfg : Config) : PlainAuth :=
  { identity := "", username := cfg.AuthUser, password := cfg.AuthPassword,
    host := cfg.SMTPServer.Host }

/-- The events of `sendMail` and the error it returns, one case per exit. -/
inductive SessionTrace (auth : PlainAuth) (mail : Mail) : Option GoError → List Event → Prop
  | authFailed (e : GoError) :
      SessionTrace auth mail (some e) [⟨Op.auth auth, some e⟩]
  | mailFailed (e : GoError) :
      SessionTrace auth mail (some e) [⟨Op.auth auth, none⟩, ⟨Op.mail mail.senderID, some e⟩]
  | rcptFailed (i : Nat) (h : i < mail.toIds.length) (e : GoError) :
      SessionTrace auth mail (some e)
        ([⟨Op.auth auth, none⟩, ⟨Op.mail mail.senderID, none⟩]
          ++ (mail.toIds.take i).map okRcpt ++ [⟨Op.rcpt (mail.toIds.get ⟨i, h⟩), some e⟩])
  | dataFailed (e : GoError) :
      SessionTrace auth mail (some e)
        ([⟨Op.auth auth, none⟩, ⟨Op.mail mail.senderID, none⟩]
          ++ mail.toIds.map okRcpt ++ [⟨Op.data, some e⟩])
  | writeFailed (e : GoError) :
      SessionTrace auth mail (some e)
        ([⟨Op.auth auth, none⟩, ⟨Op.mail mail.senderID, none⟩]
          ++ mail.toIds.map okRcpt
          ++ [⟨Op.data, none⟩, ⟨Op.write mail.BuildMessage, some e⟩])
  | closeFailed (e : GoError) :
      SessionTrace auth mail (some e)
        ([⟨Op.auth auth, none⟩, ⟨Op.mail mail.senderID, none⟩]
          ++ mail.toIds.map okRcpt
          ++ [⟨Op.data, none⟩, ⟨Op.write mail.BuildMessage, none⟩, ⟨Op.closeWriter, some e⟩])
  | sent (q l : Option GoError) :
      SessionTrace auth mail none
        ([⟨Op.auth auth, none⟩, ⟨Op.mail mail.senderID, none⟩]
          ++ mail.toIds.map okRcpt
          ++ [⟨Op.data, none⟩, ⟨Op.write mail.BuildMessage, none⟩, ⟨Op.closeWriter, none⟩,
              ⟨Op.quit, q⟩, ⟨Op.logPrintln "Mail sent successfully", l⟩])

/-- The events of `run` once `initConfig` has succeeded, and the error it
returns: how the connection was made, then the session. -/
inductive RunTrace (c : Context) (cfg : Config) (mail : Mail) :
    Option GoError → List Event → Prop
  | tlsDialFailed (hssl : c.ssl = true) (p : Option GoError) (e : GoError) :
      RunTrace c cfg mail (some e)
        [⟨Op.printf "Using SSL/TLS on port %q\n" cfg.SMTPServer.Port, p⟩,
         ⟨Op.tlsDial "tcp" cfg.SMTPServer.ServerName ⟨cfg.SMTPServer.Host⟩, some e⟩]
  | newClientFailed (hssl : c.ssl = true) (p : Option GoError) (e : GoError) :
      RunTrace c cfg mail (some e)
        [⟨Op.printf "Using SSL/TLS on port %q\n" cfg.SMTPServer.Port, p⟩,
         ⟨Op.tlsDial "tcp" cfg.SMTPServer.ServerName ⟨cfg.SMTPServer.Host⟩, none⟩,
         ⟨Op.newClient cfg.SMTPServer.Host, some e⟩]
  | overTLS (hssl : c.ssl = true) (p : Option GoError) (r : Option GoError)
      (evs : List Event) (hs : SessionTrace (authOf cfg) mail r evs) :
      RunTrace c cfg mail r
        ([⟨Op.printf "Using SSL/TLS on port %q\n" cfg.SMTPServer.Port, p⟩,
          ⟨Op.tlsDial "tcp" cfg.SMTPServer.ServerName ⟨cfg.SMTPServer.Host⟩, none⟩,
          ⟨Op.newClient cfg.SMTPServer.Host, none⟩] ++ evs)
  | smtpDialFailed (hssl : c.ssl = false) (p : Option GoError) (e : GoError) :
      RunTrace c cfg mail (some e)
        [⟨Op.printf "Using STARTTLS on port %q\n" cfg.SMTPServer.Port, p⟩,
         ⟨Op.smtpDial cfg.SMTPServer.ServerName, some e⟩]
  | overStartTLS (hssl : c.ssl = false) (p t : Option GoError) (r : Option GoError)
      (evs : List Event) (hs : SessionTrace (authOf cfg) mail r evs) :
      RunTrace c cfg mail r
        ([⟨Op.printf "Using STARTTLS on port %q\n" cfg.SMTPServer.Port, p⟩,
          ⟨Op.smtpDial cfg.SMTPServer.ServerName, none⟩,
          ⟨Op.startTLS ⟨cfg.SMTPServer.Host⟩, t⟩] ++ evs)

/-- The events of `run` before the session, when the connection was made:
the announcement, then a TLS dial and the client, or a plaintext dial and the
STARTTLS upgrade with whatever it returned (`t`). -/
def connectEvents (c : Context) (cfg : Config) (p t : Option GoError) : List Event :=
  if c.ssl then
    [⟨Op.printf "Using SSL/TLS on port %q\n" cfg.SMTPServer.Port, p⟩,
     ⟨Op.tlsDial "tcp" cfg.SMTPServer.ServerName ⟨cfg.SMTPServer.Host⟩, none⟩,
     ⟨Op.newClient cfg.SMTPServer.Host, none⟩]
  else
    [⟨Op.printf "Using STARTTLS on port %q\n" cfg.SMTPServer.Port, p⟩,
     ⟨Op.smtpDial cfg.SMTPServer.ServerName, none⟩,
     ⟨Op.startTLS ⟨cfg.SMTPServer.Host⟩, t⟩]

/-- The events of a session that went through: Auth, Mail, one Rcpt per
recipient in list order, Data, one Write of the composed message and the
Close of the writer, all without error, then Quit and the log line. -/
def sentEvents (auth : PlainAuth) (mail : Mail) (q l : Option GoError) : List Event :=
  [⟨Op.auth auth, none⟩, ⟨Op.mail mail.senderID, none⟩]
    ++ mail.toIds.map okRcpt
    ++ [⟨Op.data, none⟩, ⟨Op.write mail.BuildMessage, none⟩, ⟨Op.closeWriter, none⟩,
        ⟨Op.quit, q⟩, ⟨Op.logPrintln "Mail sent successfully", l⟩]

/-! ## Message composer: the output format -/

/-- The recipients joined with `;` in input order, written out by recursion
on the list: the words of the specification, to compare `strings.Join` with. -/
def joinSemicolon : List String → String
  | [] => ""
  | [a] => a
  | a :: b :: rest => a ++ ";" ++ joinSemicolon (b :: rest)

theorem intercalate_go_eq (acc b : String) (rest : List String) :
    String.intercalate.go acc ";" (b :: rest) = acc ++ ";" ++ joinSemicolon (b :: rest) := by
  induction rest generalizing acc b with
  | nil => rfl
  | cons c rest ih =>
    rw [String.intercalate.go, ih]
    simp only [joinSemicolon, String.append_assoc]

theorem stringsJoin_eq_joinSemicolon (l : List String) :
    stringsJoin l ";" = joinSemicolon l := by
  match l with
  | [] => rfl
  | [a] => rfl
  | a :: b :: rest =>
    simp only [stringsJoin, String.intercalate, joinSemicolon]
    rw [intercalate_go_eq, String.append_assoc]

theorem BuildMessage_of_recipients (mail : Mail) (h : mail.toIds.length ≥ 1) :
    mail.BuildMessage =
      "From: " ++ mail.senderID ++ "\r\n" ++ "To: " ++ joinSemicolon mail.toIds ++ "\r\n"
        ++ "Subject: " ++ mail.subject ++ "\r\n" ++ "\r\n" ++ mail.body := by
  have h0 : mail.toIds.length > 0 := h
  simp only [Mail.BuildMessage, h0, if_true, stringsJoin_eq_joinSemicolon,
    String.empty_append, String.append_assoc]

/-- C1. For a mail with at least one recipient, BuildMessage returns exactly
"From: " sender CRLF "To: " recipients joined with ";" in input order CRLF
"Subject: " subject CRLF CRLF body, with nothing before, between or after. -/
theorem BuildMessage_format (mail : Mail) (h : mail.toIds.length ≥ 1) :
    mail.BuildMessage =
      "From: " ++ mail.senderID ++ "\r\n" ++ "To: " ++ joinSemicolon mail.toIds ++ "\r\n"
        ++ "Subject: " ++ mail.subject ++ "\r\n" ++ "\r\n" ++ mail.body := by
  have h0 : mail.toIds.length > 0 := h
  simp only [Mail.BuildMessage, h0, if_true, stringsJoin_eq_joinSemicolon,
    String.empty_append, String.append_assoc]

/-- The scenario of the specification: sender "alice", one recipient. -/
theorem BuildMessage_format_witness :
    exampleMail.toIds.length ≥ 1 ∧
    exampleMail.BuildMessage
      = "From: alice\r\nTo: bob@example.com\r\nSubject: Hi\r\n\r\nHello" :=
  ⟨by decide, (BuildMessage_format exampleMail (by decide)).trans (by decide)⟩

/-! ## Header lines of a composed message -/

theorem splitCRLF_ne_nil (l : List Char) : splitCRLF l ≠ [] := by
  match l with
  | [] => simp [splitCRLF]
  | [c] => simp [splitCRLF]
  | c :: d :: rest =>
    unfold splitCRLF
    split
    · simp
    · cases h : splitCRLF (d :: rest) <;> simp [consHead]

theorem hasCRLF_cons_of_ne (c : Char) (l : List Char) (hc : c ≠ '\r') :
    hasCRLF (c :: l) = hasCRLF l := by
  simp [hasCRLF, hc]

theorem hasCRLF_append_of_head (a b : List Char) (hb : b.head? ≠ some '\n') :
    hasCRLF (a ++ b) = (hasCRLF a || hasCRLF b) := by
  induction a with
  | nil => simp [hasCRLF]
  | cons c a ih =>
    cases a with
    | nil => simp [hasCRLF, hb]
    | cons d a =>
      show hasCRLF (c :: ((d :: a) ++ b)) = (hasCRLF (c :: d :: a) || hasCRLF b)
      rw [hasCRLF, ih]
      simp [hasCRLF, Bool.or_assoc]

/-- A line without CRLF, followed by CRLF, is the first segment. -/
theorem splitCRLF_line (l rest : List Char) (hl : hasCRLF l = false) :
    splitCRLF (l ++ '\r' :: '\n' :: rest) = l :: splitCRLF rest := by
  induction l with
  | nil => simp [splitCRLF]
  | cons c l ih =>
    cases l with
    | nil =>
      simp [splitCRLF, consHead]
    | cons d l =>
      rw [hasCRLF, Bool.or_eq_false_iff] at hl
      have h1 : ¬ (c = '\r' ∧ d = '\n') := by
        have := hl.1
        simp at this
        tauto
      have h3 := ih hl.2
      show splitCRLF (c :: d :: (l ++ '\r' :: '\n' :: rest)) = _
      rw [splitCRLF, if_neg h1]
      rw [List.cons_append] at h3
      rw [h3, consHead]

theorem hasCRLF_joinSemicolon (l : List String)
    (h : ∀ r ∈ l, hasCRLF r.data = false) : hasCRLF (joinSemicolon l).data = false := by
  match l with
  | [] => rfl
  | [a] => exact h a (by simp)
  | a :: b :: rest =>
    have ih := hasCRLF_joinSemicolon (b :: rest) (fun r hr => h r (by simp at hr ⊢; tauto))
    have ha := h a (by simp)
    have e : (joinSemicolon (a :: b :: rest)).data
        = a.data ++ (';' :: (joinSemicolon (b :: rest)).data) := by
      rw [joinSemicolon]
      simp only [String.data_append, List.append_assoc]
      rfl
    rw [e, hasCRLF_append_of_head _ _ (by simp), hasCRLF_cons_of_ne _ _ (by decide), ha, ih]
    rfl

theorem hasCRLF_From (s : String) (h : hasCRLF s.data = false) :
    hasCRLF ("From: " ++ s).data = false := by
  show hasCRLF ('F' :: 'r' :: 'o' :: 'm' :: ':' :: ' ' :: s.data) = false
  simp [hasCRLF, h]

theorem hasCRLF_To (s : String) (h : hasCRLF s.data = false) :
    hasCRLF ("To: " ++ s).data = false := by
  show hasCRLF ('T' :: 'o' :: ':' :: ' ' :: s.data) = false
  simp [hasCRLF, h]

theorem hasCRLF_Subject (s : String) (h : hasCRLF s.data = false) :
    hasCRLF ("Subject: " ++ s).data = false := by
  show hasCRLF ('S' :: 'u' :: 'b' :: 'j' :: 'e' :: 'c' :: 't' :: ':' :: ' ' :: s.data) = false
  simp [hasCRLF, h]

/-- The header section of a composed message when no header value carries a
CRLF: the From, To and Subject lines, in this order. -/
theorem headerLines_BuildMessage (mail : Mail) (h : mail.toIds.length ≥ 1)
    (hs : hasCRLF mail.senderID.data = false)
    (ht : ∀ r ∈ mail.toIds, hasCRLF r.data = false)
    (hj : hasCRLF mail.subject.data = false) :
    headerLines mail.BuildMessage =
      ["From: " ++ mail.senderID, "To: " ++ joinSemicolon mail.toIds,
        "Subject: " ++ mail.subject] := by
  have e : mail.BuildMessage.data =
      ("From: " ++ mail.senderID).data ++ '\r' :: '\n' ::
        (("To: " ++ joinSemicolon mail.toIds).data ++ '\r' :: '\n' ::
          (("Subject: " ++ mail.subject).data ++ '\r' :: '\n' ::
            ([] ++ '\r' :: '\n' :: mail.body.data))) := by
    rw [BuildMessage_of_recipients mail h]
    simp only [String.data_append, List.append_assoc]
    rfl
  have hF := hasCRLF_From _ hs
  have hT := hasCRLF_To _ (hasCRLF_joinSemicolon _ ht)
  have hS := hasCRLF_Subject _ hj
  have hb := splitCRLF_ne_nil mail.body.data
  unfold headerLines
  rw [e, splitCRLF_line _ _ hF, splitCRLF_line _ _ hT, splitCRLF_line _ _ hS,
    splitCRLF_line [] _ rfl]
  have hF0 : ("From: " ++ mail.senderID).data.isEmpty = false := rfl
  have hT0 : ("To: " ++ joinSemicolon mail.toIds).data.isEmpty = false := rfl
  have hS0 : ("Subject: " ++ mail.subject).data.isEmpty = false := rfl
  cases hX : splitCRLF mail.body.data with
  | nil => exact absurd hX hb
  | cons y ys =>
    simp only [List.dropLast, List.takeWhile, hF0, hT0, hS0, Bool.not_false, Bool.not_true,
      List.isEmpty_nil, List.map_cons, List.map_nil]

/-- C2 (as amended). For a mail with N ≥ 1 recipients whose sender, recipient
addresses and subject contain no CRLF (any body), the header section of
BuildMessage has exactly one line starting with "To:", and that line is
"To: " followed by all N recipients joined with ";" in input order. -/
theorem BuildMessage_one_To_header (mail : Mail) (h : mail.toIds.length ≥ 1)
    (hs : hasCRLF mail.senderID.data = false)
    (ht : ∀ r ∈ mail.toIds, hasCRLF r.data = false)
    (hj : hasCRLF mail.subject.data = false) :
    (headerLines mail.BuildMessage).filter startsWithTo
      = ["To: " ++ joinSemicolon mail.toIds] := by
  rw [headerLines_BuildMessage mail h hs ht hj]
  have hF : startsWithTo ("From: " ++ mail.senderID) = false := rfl
  have hT : startsWithTo ("To: " ++ joinSemicolon mail.toIds) = true := rfl
  have hS : startsWithTo ("Subject: " ++ mail.subject) = false := rfl
  simp [List.filter, hF, hT, hS]

/-- The scenario of the specification has the single header line
"To: bob@example.com". -/
theorem BuildMessage_one_To_header_witness :
    exampleMail.toIds.length ≥ 1 ∧
    hasCRLF exampleMail.senderID.data = false ∧
    (∀ r ∈ exampleMail.toIds, hasCRLF r.data = false) ∧
    hasCRLF exampleMail.subject.data = false ∧
    (headerLines exampleMail.BuildMessage).filter startsWithTo = ["To: bob@example.com"] :=
  ⟨by decide, by decide, by decide, by decide,
   BuildMessage_one_To_header exampleMail (by decide) (by decide) (by decide) (by decide)⟩

/-- C2 as stated fails: with a sender carrying CRLF and a header of its own,
the header section of the composed message has two lines starting with "To:",
although the mail has one recipient. -/
theorem BuildMessage_two_To_headers :
    injectedMail.toIds.length ≥ 1 ∧
    (headerLines injectedMail.BuildMessage).filter startsWithTo
      = ["To: evil@example.com", "To: bob@example.com"] ∧
    (headerLines injectedMail.BuildMessage).filter startsWithTo
      ≠ ["To: " ++ joinSemicolon injectedMail.toIds] := by
  decide

/-! ## The session: every run has one of the listed shapes -/

theorem rcptLoop_shape (w : World) (ks : List String) (tr : List Event) :
    rcptLoop w ks tr = (none, tr ++ ks.map okRcpt) ∨
    ∃ (i : Nat) (h : i < ks.length) (e : GoError),
      rcptLoop w ks tr
        = (some e, tr ++ (ks.take i).map okRcpt ++ [⟨Op.rcpt (ks.get ⟨i, h⟩), some e⟩]) := by
  induction ks generalizing tr with
  | nil => left; simp [rcptLoop]
  | cons k ks ih =>
    unfold rcptLoop
    simp only [call]
    cases hk : w tr (Op.rcpt k) with
    | some e =>
      right
      exact ⟨0, by simp, e, by simp⟩
    | none =>
      simp only []
      rcases ih (tr ++ [⟨Op.rcpt k, none⟩]) with h | ⟨i, hi, e, h⟩
      · left
        rw [h]
        simp [okRcpt]
      · right
        refine ⟨i + 1, by simpa using hi, e, ?_⟩
        rw [h]
        simp [okRcpt]

theorem sendMail_shape (w : World) (auth : PlainAuth) (mail : Mail) (tr : List Event) :
    ∃ evs, (sendMail w auth mail tr).2 = tr ++ evs ∧
      SessionTrace auth mail (sendMail w auth mail tr).1 evs := by
  unfold sendMail
  simp only [call]
  cases h1 : w tr (Op.auth auth) with
  | some e => exact ⟨_, rfl, SessionTrace.authFailed e⟩
  | none =>
  simp only []
  cases h2 : w (tr ++ [⟨Op.auth auth, none⟩]) (Op.mail mail.senderID) with
  | some e => exact ⟨_, by simp, SessionTrace.mailFailed e⟩
  | none =>
  simp only []
  rcases rcptLoop_shape w mail.toIds
      (tr ++ [⟨Op.auth auth, none⟩] ++ [⟨Op.mail mail.senderID, none⟩]) with h3 | ⟨i, hi, e, h3⟩
  · rw [h3]
    simp only []
    cases h4 : w (tr ++ [⟨Op.auth auth, none⟩] ++ [⟨Op.mail mail.senderID, none⟩]
        ++ mail.toIds.map okRcpt) Op.data with
    | some e => exact ⟨_, by simp, SessionTrace.dataFailed e⟩
    | none =>
    simp only []
    cases h5 : w (tr ++ [⟨Op.auth auth, none⟩] ++ [⟨Op.mail mail.senderID, none⟩]
        ++ mail.toIds.map okRcpt ++ [⟨Op.data, none⟩]) (Op.write mail.BuildMessage) with
    | some e => exact ⟨_, by simp, SessionTrace.writeFailed e⟩
    | none =>
    simp only []
    cases h6 : w (tr ++ [⟨Op.auth auth, none⟩] ++ [⟨Op.mail mail.senderID, none⟩]
        ++ mail.toIds.map okRcpt ++ [⟨Op.data, none⟩]
        ++ [⟨Op.write mail.BuildMessage, none⟩]) Op.closeWriter with
    | some e => exact ⟨_, by simp, SessionTrace.closeFailed e⟩
    | none =>
      simp only []
      generalize w _ Op.quit = q
      generalize w _ (Op.logPrintln _) = l
      exact ⟨_, by simp, SessionTrace.sent q l⟩
  · rw [h3]
    exact ⟨_, by simp, SessionTrace.rcptFailed i hi e⟩

theorem run_shape (c : Context) (w : World) (cfg : Config) (mail : Mail)
    (h : initConfig c = Except.ok (cfg, mail)) :
    RunTrace c cfg mail (run c w).1 (run c w).2 := by
  unfold run
  rw [h]
  simp only [call, List.nil_append]
  cases hssl : c.ssl with
  | true =>
    simp only [if_true]
    generalize w [] (Op.printf "Using SSL/TLS on port %q\n" cfg.SMTPServer.Port) = p
    cases h1 : w [⟨Op.printf "Using SSL/TLS on port %q\n" cfg.SMTPServer.Port, p⟩]
        (Op.tlsDial "tcp" cfg.SMTPServer.ServerName ⟨cfg.SMTPServer.Host⟩) with
    | some e => exact RunTrace.tlsDialFailed hssl p e
    | none =>
    simp only []
    cases h2 : w ([⟨Op.printf "Using SSL/TLS on port %q\n" cfg.SMTPServer.Port, p⟩]
        ++ [⟨Op.tlsDial "tcp" cfg.SMTPServer.ServerName ⟨cfg.SMTPServer.Host⟩, none⟩])
        (Op.newClient cfg.SMTPServer.Host) with
    | some e => exact RunTrace.newClientFailed hssl p e
    | none =>
    simp only []
    obtain ⟨evs, h3, h4⟩ := sendMail_shape w (authOf cfg) mail
      ([⟨Op.printf "Using SSL/TLS on port %q\n" cfg.SMTPServer.Port, p⟩]
        ++ [⟨Op.tlsDial "tcp" cfg.SMTPServer.ServerName ⟨cfg.SMTPServer.Host⟩, none⟩]
        ++ [⟨Op.newClient cfg.SMTPServer.Host, none⟩])
    rw [authOf] at h3 h4
    rw [h3]
    exact RunTrace.overTLS hssl p _ evs h4
  | false =>
    simp only [Bool.false_eq_true, if_false]
    generalize w [] (Op.printf "Using STARTTLS on port %q\n" cfg.SMTPServer.Port) = p
    cases h1 : w [⟨Op.printf "Using STARTTLS on port %q\n" cfg.SMTPServer.Port, p⟩]
        (Op.smtpDial cfg.SMTPServer.ServerName) with
    | some e => exact RunTrace.smtpDialFailed hssl p e
    | none =>
    simp only []
    generalize w ([⟨Op.printf "Using STARTTLS on port %q\n" cfg.SMTPServer.Port, p⟩]
        ++ [⟨Op.smtpDial cfg.SMTPServer.ServerName, none⟩])
        (Op.startTLS ⟨cfg.SMTPServer.Host⟩) = t
    obtain ⟨evs, h3, h4⟩ := sendMail_shape w (authOf cfg) mail
      ([⟨Op.printf "Using STARTTLS on port %q\n" cfg.SMTPServer.Port, p⟩]
        ++ [⟨Op.smtpDial cfg.SMTPServer.ServerName, none⟩]
        ++ [⟨Op.startTLS ⟨cfg.SMTPServer.Host⟩, t⟩])
    rw [authOf] at h3 h4
    rw [h3]
    exact RunTrace.overStartTLS hssl p t _ evs h4

/-! ## Validation -/

theorem length_eq_zero_iff (s : String) : s.length = 0 ↔ s = "" := by
  constructor
  · intro h
    apply String.ext
    exact List.length_eq_zero.mp h
  · intro h
    subst h
    rfl

/-- What a successful `initConfig` returns. -/
theorem initConfig_ok (c : Context) (cfg : Config) (mail : Mail)
    (h : initConfig c = Except.ok (cfg, mail)) :
    cfg = { AuthUser := c.user, AuthPassword := c.password,
            SMTPServer := { Host := c.host, Port := c.port } } ∧
    mail = { toIds := c.recipients, subject := c.subject, body := c.body,
             senderID := if c.sender = "" then c.user else c.sender } := by
  unfold initConfig at h
  simp only [] at h
  split at h
  · cases h
  · split at h
    · cases h
    · simp only [Except.ok.injEq, Prod.mk.injEq] at h
      obtain ⟨h1, h2⟩ := h
      subst h1 h2
      refine ⟨rfl, ?_⟩
      by_cases hs : c.sender = ""
      · simp [hs]
      · have : ¬ c.sender.length = 0 := fun hl => hs ((length_eq_zero_iff _).mp hl)
        simp [hs, this]

/-- The inputs `initConfig` accepts: the port plays no part. -/
theorem initConfig_ok_iff (c : Context) :
    (∃ cfg mail, initConfig c = Except.ok (cfg, mail)) ↔
      c.user ≠ "" ∧ c.host ≠ "" ∧ c.recipients ≠ [] ∧ c.subject ≠ "" ∧ c.body ≠ "" := by
  unfold initConfig
  simp only []
  constructor
  · rintro ⟨cfg, mail, h⟩
    split at h
    · cases h
    · split at h
      · cases h
      · rename_i h1 h2
        simp [length_eq_zero_iff] at h1 h2
        refine ⟨h1.1, h1.2, ?_, h2.1.2, h2.2⟩
        intro hr
        simp [hr] at h2
  · rintro ⟨h1, h2, h3, h4, h5⟩
    have h3' : ¬ c.recipients.length < 1 := by
      cases hc : c.recipients with
      | nil => exact absurd hc h3
      | cons a l => simp
    simp [length_eq_zero_iff, h1, h2, h3', h4, h5]

/-- C3, the failing input: with an empty port and every other field filled,
initConfig returns a Config and a Mail and no error, although the claim (and
the error text of the first check) counts the port among the required
fields. -/
theorem initConfig_accepts_empty_port :
    initConfig emptyPortContext =
      Except.ok
        ({ AuthUser := "alice", AuthPassword := "secret",
           SMTPServer := { Host := "smtp.example.com", Port := "" } },
         { senderID := "alice", toIds := ["bob@example.com"], subject := "Hi",
           body := "Hello" }) := by
  rfl

/-! ## Configuration errors -/

theorem initConfig_no_recipients (c : Context) (h : c.recipients = []) :
    ∃ e, initConfig c = Except.error e := by
  unfold initConfig
  simp only [h]
  split
  · exact ⟨_, rfl⟩
  · exact ⟨_, rfl⟩

theorem run_of_initConfig_error (c : Context) (w : World) (e : GoError)
    (h : initConfig c = Except.error e) :
    run c w = (some e, [⟨Op.showAppHelp, w [] Op.showAppHelp⟩]) := by
  unfold run
  rw [h]
  simp [call]

/-- C9. Whenever initConfig returns an error, run returns that same error and
the only call it makes is the help display: no TLS dial, no plaintext dial
and no SMTP command is issued. -/
theorem run_config_error (c : Context) (w : World) (e : GoError)
    (h : initConfig c = Except.error e) :
    run c w = (some e, [⟨Op.showAppHelp, w [] Op.showAppHelp⟩]) := by
  unfold run
  rw [h]
  simp [call]

/-- With zero recipients the error of the second check comes back and the
trace holds the help display alone. -/
theorem run_config_error_witness :
    initConfig noRecipients
      = Except.error "At least one recipient is required and subject/body can't be empty" ∧
    run noRecipients allOk
      = (some "At least one recipient is required and subject/body can't be empty",
         [⟨Op.showAppHelp, none⟩]) :=
  ⟨rfl, run_config_error noRecipients allOk _ rfl⟩

/-! ## STARTTLS failure -/

/-- C5, the failing input: without the ssl flag and with a server whose
STARTTLS upgrade fails, run still issues Auth, and no event before it
established encryption. -/
theorem auth_issued_without_encryption :
    (run exampleContext startTLSFails).2.take 4 =
      [⟨Op.printf "Using STARTTLS on port %q\n" "587", none⟩,
       ⟨Op.smtpDial "smtp.example.com:587", none⟩,
       ⟨Op.startTLS ⟨"smtp.example.com"⟩, some "x509: certificate signed by unknown authority"⟩,
       ⟨Op.auth ⟨"", "alice", "secret", "smtp.example.com"⟩, none⟩] ∧
    authOnlyAfterEncryption false (run exampleContext startTLSFails).2 = false := by
  decide

/-- C6, the failing input: without the ssl flag and with a server whose
STARTTLS upgrade fails, run returns nil and goes on to issue Auth, Mail, Rcpt
and Data after the failed upgrade. -/
theorem startTLS_error_ignored :
    run exampleContext startTLSFails =
      (none,
       [⟨Op.printf "Using STARTTLS on port %q\n" "587", none⟩,
        ⟨Op.smtpDial "smtp.example.com:587", none⟩,
        ⟨Op.startTLS ⟨"smtp.example.com"⟩, some "x509: certificate signed by unknown authority"⟩,
        ⟨Op.auth ⟨"", "alice", "secret", "smtp.example.com"⟩, none⟩,
        ⟨Op.mail "alice", none⟩,
        ⟨Op.rcpt "bob@example.com", none⟩,
        ⟨Op.data, none⟩,
        ⟨Op.write "From: alice\r\nTo: bob@example.com\r\nSubject: Hi\r\n\r\nHello", none⟩,
        ⟨Op.closeWriter, none⟩,
        ⟨Op.quit, none⟩,
        ⟨Op.logPrintln "Mail sent successfully", none⟩]) := by
  decide

/-! ## Closing the connection -/

/-- C8 as stated fails: when the server rejects the sender, run returns the
error with the connection opened and no Quit or Close issued on it, neither
by run nor inside a failed Auth or NewClient. -/
theorem connection_left_open :
    (run exampleContext mailRejected).1 = some "550 sender rejected" ∧
    (run exampleContext mailRejected).2.any connectionOpened = true ∧
    (run exampleContext mailRejected).2.any closesConnection = false := by
  decide

/-! ## The session: consequences of the shapes -/

theorem runTrace_success {c : Context} {cfg : Config} {mail : Mail} {tr : List Event}
    (hs : RunTrace c cfg mail none tr) :
    ∃ p t q l, tr = connectEvents c cfg p t ++ sentEvents (authOf cfg) mail q l := by
  cases hs with
  | overTLS hssl p _ evs hs =>
    cases hs with
    | sent q l => exact ⟨p, none, q, l, by simp [connectEvents, hssl, sentEvents]⟩
  | overStartTLS hssl p t _ evs hs =>
    cases hs with
    | sent q l => exact ⟨p, t, q, l, by simp [connectEvents, hssl, sentEvents]⟩

theorem rcptLoop_allOk (w : World) (hw : ∀ tr op, w tr op = none) (ks : List String)
    (tr : List Event) : rcptLoop w ks tr = (none, tr ++ ks.map okRcpt) := by
  induction ks generalizing tr with
  | nil => simp [rcptLoop]
  | cons k ks ih => simp [rcptLoop, call, hw, ih, okRcpt]

theorem sendMail_allOk (w : World) (hw : ∀ tr op, w tr op = none) (auth : PlainAuth)
    (mail : Mail) (tr : List Event) :
    sendMail w auth mail tr = (none, tr ++ sentEvents auth mail none none) := by
  simp [sendMail, call, hw, rcptLoop_allOk w hw, sentEvents]

theorem run_allOk (c : Context) (w : World) (cfg : Config) (mail : Mail)
    (h : initConfig c = Except.ok (cfg, mail)) (hw : ∀ tr op, w tr op = none) :
    run c w = (none, connectEvents c cfg none none ++ sentEvents (authOf cfg) mail none none) := by
  unfold run
  rw [h]
  cases hssl : c.ssl <;>
    simp [call, hw, sendMail_allOk w hw, connectEvents, hssl, authOf]

/-- C10. With a valid configuration: when every call succeeds run returns
nil; and whenever run returns nil, what it issued after securing the channel
is exactly Auth(credentials), Mail(senderID), Rcpt for each recipient in list
order, Data, one Write of BuildMessage of the same Mail, Close of the writer,
Quit (and the log line), with Auth, Mail, every Rcpt, Data, Write and the
writer's Close all having returned no error. -/
theorem run_success_sequence (c : Context) (w : World) (cfg : Config) (mail : Mail)
    (h : initConfig c = Except.ok (cfg, mail)) :
    ((∀ tr op, w tr op = none) →
      run c w =
        (none, connectEvents c cfg none none ++ sentEvents (authOf cfg) mail none none)) ∧
    ((run c w).1 = none →
      ∃ p t q l, (run c w).2 = connectEvents c cfg p t ++ sentEvents (authOf cfg) mail q l) := by
  refine ⟨run_allOk c w cfg mail h, fun hr => ?_⟩
  have hs := run_shape c w cfg mail h
  rw [hr] at hs
  exact runTrace_success hs

/-- The scenario of the specification with a server that accepts everything. -/
theorem run_success_sequence_witness :
    run exampleContext allOk =
      (none,
       [⟨Op.printf "Using STARTTLS on port %q\n" "587", none⟩,
        ⟨Op.smtpDial "smtp.example.com:587", none⟩,
        ⟨Op.startTLS ⟨"smtp.example.com"⟩, none⟩,
        ⟨Op.auth ⟨"", "alice", "secret", "smtp.example.com"⟩, none⟩,
        ⟨Op.mail "alice", none⟩,
        ⟨Op.rcpt "bob@example.com", none⟩,
        ⟨Op.data, none⟩,
        ⟨Op.write "From: alice\r\nTo: bob@example.com\r\nSubject: Hi\r\n\r\nHello", none⟩,
        ⟨Op.closeWriter, none⟩,
        ⟨Op.quit, none⟩,
        ⟨Op.logPrintln "Mail sent successfully", none⟩]) :=
  ((run_success_sequence exampleContext allOk
      ⟨"alice", "secret", ⟨"smtp.example.com", "587"⟩⟩ exampleMail rfl).1
    (fun _ _ => rfl)).trans (by decide)

/-! ## Recipients -/

theorem okRcpt_err (ks : List String) (ev : Event) (h : ev ∈ ks.map okRcpt) :
    ev.err = none := by
  simp only [List.mem_map] at h
  obtain ⟨a, _, ha⟩ := h
  rw [← ha]
  rfl

theorem sessionTrace_rcpt_failed {auth : PlainAuth} {mail : Mail} {r : Option GoError}
    {evs : List Event} (hs : SessionTrace auth mail r evs) (k : String) (e : GoError)
    (hfail : (⟨Op.rcpt k, some e⟩ : Event) ∈ evs) :
    ∃ (i : Nat) (hi : i < mail.toIds.length),
      mail.toIds.get ⟨i, hi⟩ = k ∧ r = some e ∧
      evs = [⟨Op.auth auth, none⟩, ⟨Op.mail mail.senderID, none⟩]
        ++ (mail.toIds.take i).map okRcpt ++ [⟨Op.rcpt k, some e⟩] := by
  cases hs with
  | authFailed e1 => simp at hfail
  | mailFailed e1 => simp at hfail
  | rcptFailed i hi e1 =>
    simp only [List.mem_append, List.mem_cons, List.mem_singleton, List.not_mem_nil,
      or_false] at hfail
    rcases hfail with (hfail | hfail) | hfail
    · rcases hfail with hfail | hfail <;> cases hfail
    · have := okRcpt_err _ _ hfail
      simp at this
    · injection hfail with hk he
      injection he with he
      injection hk with hk
      subst he
      exact ⟨i, hi, hk.symm, rfl, by rw [hk]⟩
  | dataFailed e1 => simp [okRcpt] at hfail
  | writeFailed e1 => simp [okRcpt] at hfail
  | closeFailed e1 => simp [okRcpt] at hfail
  | sent q l => simp [okRcpt] at hfail

theorem rcptArgs_append (a b : List Event) : rcptArgs (a ++ b) = rcptArgs a ++ rcptArgs b := by
  simp [rcptArgs]

theorem rcptArgs_okRcpt (ks : List String) : rcptArgs (ks.map okRcpt) = ks := by
  induction ks with
  | nil => rfl
  | cons k ks ih =>
    have : rcptArgs (okRcpt k :: ks.map okRcpt) = k :: rcptArgs (ks.map okRcpt) := rfl
    simp [this, ih]

theorem rcptArgs_connectEvents (c : Context) (cfg : Config) (p t : Option GoError) :
    rcptArgs (connectEvents c cfg p t) = [] := by
  unfold connectEvents
  split <;> rfl

theorem sessionTrace_rcptArgs {auth : PlainAuth} {mail : Mail} {r : Option GoError}
    {evs : List Event} (hs : SessionTrace auth mail r evs) :
    ∃ n, n ≤ mail.toIds.length ∧ rcptArgs evs = mail.toIds.take n := by
  cases hs with
  | authFailed e => exact ⟨0, Nat.zero_le _, rfl⟩
  | mailFailed e => exact ⟨0, Nat.zero_le _, rfl⟩
  | rcptFailed i hi e =>
    refine ⟨i + 1, hi, ?_⟩
    simp only [rcptArgs_append, rcptArgs_okRcpt]
    have h1 : rcptArgs [(⟨Op.auth auth, none⟩ : Event), ⟨Op.mail mail.senderID, none⟩]
        = [] := rfl
    have h3 : rcptArgs [(⟨Op.rcpt (mail.toIds.get ⟨i, hi⟩), some e⟩ : Event)]
        = [mail.toIds.get ⟨i, hi⟩] := rfl
    rw [h1, h3, List.take_succ, List.getElem?_eq_getElem hi]
    rfl
  | dataFailed e =>
    refine ⟨mail.toIds.length, Nat.le_refl _, ?_⟩
    simp only [rcptArgs_append, rcptArgs_okRcpt]
    have h1 : rcptArgs [(⟨Op.auth auth, none⟩ : Event), ⟨Op.mail mail.senderID, none⟩]
        = [] := rfl
    have h3 : rcptArgs [(⟨Op.data, some e⟩ : Event)] = [] := rfl
    rw [h1, h3]
    simp
  | writeFailed e =>
    refine ⟨mail.toIds.length, Nat.le_refl _, ?_⟩
    simp only [rcptArgs_append, rcptArgs_okRcpt]
    have h1 : rcptArgs [(⟨Op.auth auth, none⟩ : Event), ⟨Op.mail mail.senderID, none⟩]
        = [] := rfl
    have h3 : rcptArgs [(⟨Op.data, none⟩ : Event), ⟨Op.write mail.BuildMessage, some e⟩]
        = [] := rfl
    rw [h1, h3]
    simp
  | closeFailed e =>
    refine ⟨mail.toIds.length, Nat.le_refl _, ?_⟩
    simp only [rcptArgs_append, rcptArgs_okRcpt]
    have h1 : rcptArgs [(⟨Op.auth auth, none⟩ : Event), ⟨Op.mail mail.senderID, none⟩]
        = [] := rfl
    have h3 : rcptArgs [(⟨Op.data, none⟩ : Event), ⟨Op.write mail.BuildMessage, none⟩,
        ⟨Op.closeWriter, some e⟩] = [] := rfl
    rw [h1, h3]
    simp
  | sent q l =>
    refine ⟨mail.toIds.length, Nat.le_refl _, ?_⟩
    simp only [rcptArgs_append, rcptArgs_okRcpt]
    have h1 : rcptArgs [(⟨Op.auth auth, none⟩ : Event), ⟨Op.mail mail.senderID, none⟩]
        = [] := rfl
    have h3 : rcptArgs [(⟨Op.data, none⟩ : Event), ⟨Op.write mail.BuildMessage, none⟩,
        ⟨Op.closeWriter, none⟩, ⟨Op.quit, q⟩,
        ⟨Op.logPrintln "Mail sent successfully", l⟩] = [] := rfl
    rw [h1, h3]
    simp

theorem runTrace_rcptArgs {c : Context} {cfg : Config} {mail : Mail} {r : Option GoError}
    {tr : List Event} (hs : RunTrace c cfg mail r tr) :
    ∃ n, n ≤ mail.toIds.length ∧ rcptArgs tr = mail.toIds.take n := by
  cases hs with
  | tlsDialFailed hssl p e => exact ⟨0, Nat.zero_le _, rfl⟩
  | newClientFailed hssl p e => exact ⟨0, Nat.zero_le _, rfl⟩
  | smtpDialFailed hssl p e => exact ⟨0, Nat.zero_le _, rfl⟩
  | overTLS hssl p _ evs hs =>
    obtain ⟨n, hn, h⟩ := sessionTrace_rcptArgs hs
    refine ⟨n, hn, ?_⟩
    rw [rcptArgs_append, h]
    rfl
  | overStartTLS hssl p t _ evs hs =>
    obtain ⟨n, hn, h⟩ := sessionTrace_rcptArgs hs
    refine ⟨n, hn, ?_⟩
    rw [rcptArgs_append, h]
    rfl

theorem run_rcpt_rejected (c : Context) (w : World) (cfg : Config) (mail : Mail)
    (h : initConfig c = Except.ok (cfg, mail)) (k : String) (e : GoError)
    (hfail : (⟨Op.rcpt k, some e⟩ : Event) ∈ (run c w).2) :
    ∃ (i : Nat) (hi : i < mail.toIds.length) (p t : Option GoError),
      mail.toIds.get ⟨i, hi⟩ = k ∧
      (run c w).2 =
        connectEvents c cfg p t ++ [⟨Op.auth (authOf cfg), none⟩, ⟨Op.mail mail.senderID, none⟩]
          ++ (mail.toIds.take i).map okRcpt ++ [⟨Op.rcpt k, some e⟩] ∧
      rcptArgs (run c w).2 = mail.toIds.take (i + 1) ∧
      (∀ ev ∈ (run c w).2, ev.op ≠ Op.data ∧ ∀ m, ev.op ≠ Op.write m) ∧
      (run c w).1 = some e := by
  have hs := run_shape c w cfg mail h
  generalize (run c w).1 = r at hs ⊢
  generalize (run c w).2 = tr at hs hfail ⊢
  have key : ∃ (i : Nat) (hi : i < mail.toIds.length) (p t : Option GoError),
      mail.toIds.get ⟨i, hi⟩ = k ∧ r = some e ∧
      tr = connectEvents c cfg p t
        ++ [⟨Op.auth (authOf cfg), none⟩, ⟨Op.mail mail.senderID, none⟩]
        ++ (mail.toIds.take i).map okRcpt ++ [⟨Op.rcpt k, some e⟩] := by
    cases hs with
    | tlsDialFailed hssl p e1 => simp at hfail
    | newClientFailed hssl p e1 => simp at hfail
    | smtpDialFailed hssl p e1 => simp at hfail
    | overTLS hssl p _ evs hs =>
      have hfail2 : (⟨Op.rcpt k, some e⟩ : Event) ∈ evs := by simpa using hfail
      obtain ⟨i, hi, hk, hr, hevs⟩ := sessionTrace_rcpt_failed hs k e hfail2
      exact ⟨i, hi, p, none, hk, hr, by simp [connectEvents, hssl, hevs]⟩
    | overStartTLS hssl p t _ evs hs =>
      have hfail2 : (⟨Op.rcpt k, some e⟩ : Event) ∈ evs := by simpa using hfail
      obtain ⟨i, hi, hk, hr, hevs⟩ := sessionTrace_rcpt_failed hs k e hfail2
      exact ⟨i, hi, p, t, hk, hr, by simp [connectEvents, hssl, hevs]⟩
  obtain ⟨i, hi, p, t, hk, hr, htr⟩ := key
  refine ⟨i, hi, p, t, hk, htr, ?_, ?_, hr⟩
  · rw [htr]
    simp only [rcptArgs_append, rcptArgs_connectEvents, rcptArgs_okRcpt]
    have h1 : rcptArgs [(⟨Op.auth (authOf cfg), none⟩ : Event), ⟨Op.mail mail.senderID, none⟩]
        = [] := rfl
    have h2 : rcptArgs [(⟨Op.rcpt k, some e⟩ : Event)] = [k] := rfl
    rw [h1, h2, ← hk, List.take_succ, List.getElem?_eq_getElem hi]
    rfl
  · rw [htr]
    intro ev hev
    simp only [List.mem_append, List.mem_map, List.mem_cons, List.mem_singleton,
      List.not_mem_nil, or_false] at hev
    rcases hev with ((hev | hev) | ⟨a, _, hev⟩) | hev
    · unfold connectEvents at hev
      split at hev <;> simp at hev <;> rcases hev with hev | hev | hev <;> subst hev <;> simp
    · rcases hev with hev | hev <;> subst hev <;> simp
    · subst hev
      simp [okRcpt]
    · subst hev
      simp

/-- C7. With a valid configuration and whatever the server answers, the Rcpt
calls run issues are those for an initial segment of the recipient list, one
per address in list order. If a Rcpt call is rejected, it is the Rcpt for some
index i and the last event of the trace, preceded by the connection events,
Auth, Mail and the accepted Rcpt calls for indices 0..i-1: the Rcpt calls
issued are exactly those for indices 0..i, no Data and no Write is issued,
and run returns that Rcpt error. -/
theorem rcpt_stops_at_first_rejection (c : Context) (w : World) (cfg : Config) (mail : Mail)
    (h : initConfig c = Except.ok (cfg, mail)) :
    (∃ n, n ≤ mail.toIds.length ∧ rcptArgs (run c w).2 = mail.toIds.take n) ∧
    ∀ (k : String) (e : GoError), (⟨Op.rcpt k, some e⟩ : Event) ∈ (run c w).2 →
      ∃ (i : Nat) (hi : i < mail.toIds.length) (p t : Option GoError),
        mail.toIds.get ⟨i, hi⟩ = k ∧
        (run c w).2 =
          connectEvents c cfg p t
            ++ [⟨Op.auth (authOf cfg), none⟩, ⟨Op.mail mail.senderID, none⟩]
            ++ (mail.toIds.take i).map okRcpt ++ [⟨Op.rcpt k, some e⟩] ∧
        rcptArgs (run c w).2 = mail.toIds.take (i + 1) ∧
        (∀ ev ∈ (run c w).2, ev.op ≠ Op.data ∧ ∀ m, ev.op ≠ Op.write m) ∧
        (run c w).1 = some e :=
  ⟨runTrace_rcptArgs (run_shape c w cfg mail h), run_rcpt_rejected c w cfg mail h⟩

/-- Three recipients, the second rejected: the Rcpt calls issued are those for
"a" and "b", and run returns the rejection. -/
theorem rcpt_stops_at_first_rejection_witness :
    (⟨Op.rcpt "b", some "550 no such user"⟩ : Event) ∈ (run threeRecipients rcptRejected).2 ∧
    ∃ (i : Nat) (hi : i < ["a", "b", "c"].length) (p t : Option GoError),
      ["a", "b", "c"].get ⟨i, hi⟩ = "b" ∧
      (run threeRecipients rcptRejected).2 =
        connectEvents threeRecipients ⟨"alice", "secret", ⟨"smtp.example.com", "587"⟩⟩ p t
          ++ [⟨Op.auth (authOf ⟨"alice", "secret", ⟨"smtp.example.com", "587"⟩⟩), none⟩,
              ⟨Op.mail "alice", none⟩]
          ++ (["a", "b", "c"].take i).map okRcpt ++ [⟨Op.rcpt "b", some "550 no such user"⟩] ∧
      rcptArgs (run threeRecipients rcptRejected).2 = ["a", "b", "c"].take (i + 1) ∧
      (∀ ev ∈ (run threeRecipients rcptRejected).2, ev.op ≠ Op.data ∧ ∀ m, ev.op ≠ Op.write m) ∧
      (run threeRecipients rcptRejected).1 = some "550 no such user" :=
  ⟨by decide,
   (rcpt_stops_at_first_rejection threeRecipients rcptRejected
     ⟨"alice", "secret", ⟨"smtp.example.com", "587"⟩⟩
     ⟨"alice", ["a", "b", "c"], "Hi", "Hello"⟩ rfl).2 "b" "550 no such user" (by decide)⟩

/-! ## The sender -/

theorem BuildMessage_From (mail : Mail) :
    ∃ rest, mail.BuildMessage = "From: " ++ mail.senderID ++ "\r\n" ++ rest := by
  unfold Mail.BuildMessage
  simp only [String.empty_append]
  split
  · exact ⟨_, by simp only [String.append_assoc]; rfl⟩
  · exact ⟨_, by simp only [String.append_assoc]; rfl⟩

/-- A property of the events of a session follows from its instances at the
calls `sendMail` can make. -/
theorem sessionTrace_forall_mem {auth : PlainAuth} {mail : Mail} {r : Option GoError}
    {evs : List Event} (hs : SessionTrace auth mail r evs) (P : Event → Prop)
    (hauth : ∀ e, P ⟨Op.auth auth, e⟩) (hmail : ∀ e, P ⟨Op.mail mail.senderID, e⟩)
    (hrcpt : ∀ k e, P ⟨Op.rcpt k, e⟩) (hdata : ∀ e, P ⟨Op.data, e⟩)
    (hwrite : ∀ e, P ⟨Op.write mail.BuildMessage, e⟩) (hclose : ∀ e, P ⟨Op.closeWriter, e⟩)
    (hquit : r = none → ∀ e, P ⟨Op.quit, e⟩)
    (hlog : r = none → ∀ e, P ⟨Op.logPrintln "Mail sent successfully", e⟩) :
    ∀ ev ∈ evs, P ev := by
  cases hs with
  | sent q l =>
    simp only [List.forall_mem_append, List.forall_mem_cons, List.forall_mem_map, okRcpt]
    simp [hauth, hmail, hrcpt, hdata, hwrite, hclose, hquit rfl, hlog rfl]
  | _ =>
    simp only [List.forall_mem_append, List.forall_mem_cons, List.forall_mem_map, okRcpt]
    simp [hauth, hmail, hrcpt, hdata, hwrite, hclose]

theorem sessionTrace_mail_write {auth : PlainAuth} {mail : Mail} {r : Option GoError}
    {evs : List Event} (hs : SessionTrace auth mail r evs) :
    ∀ ev ∈ evs, (∀ s, ev.op = Op.mail s → s = mail.senderID) ∧
      (∀ m, ev.op = Op.write m → m = mail.BuildMessage) := by
  apply sessionTrace_forall_mem hs <;> simp

theorem runTrace_mail_write {c : Context} {cfg : Config} {mail : Mail} {r : Option GoError}
    {tr : List Event} (hs : RunTrace c cfg mail r tr) :
    ∀ ev ∈ tr, (∀ s, ev.op = Op.mail s → s = mail.senderID) ∧
      (∀ m, ev.op = Op.write m → m = mail.BuildMessage) := by
  cases hs with
  | tlsDialFailed hssl p e => simp
  | newClientFailed hssl p e => simp
  | smtpDialFailed hssl p e => simp
  | overTLS hssl p _ evs hs =>
    have := sessionTrace_mail_write hs
    simpa using this
  | overStartTLS hssl p t _ evs hs =>
    have := sessionTrace_mail_write hs
    simpa using this

/-- C4. When initConfig succeeds with an empty sender flag, the Mail's
senderID is the Config's AuthUser, every Mail command run issues carries that
value, every payload run writes starts with the header line "From: " AuthUser,
and a run that returns nil has issued that Mail command; with a non-empty
sender flag, senderID is the flag value unchanged. -/
theorem sender_fallback (c : Context) (w : World) (cfg : Config) (mail : Mail)
    (h : initConfig c = Except.ok (cfg, mail)) :
    (c.sender = "" →
      mail.senderID = cfg.AuthUser ∧
      (∀ ev ∈ (run c w).2, ∀ s, ev.op = Op.mail s → s = cfg.AuthUser) ∧
      (∀ ev ∈ (run c w).2, ∀ m, ev.op = Op.write m →
        ∃ rest, m = "From: " ++ cfg.AuthUser ++ "\r\n" ++ rest) ∧
      ((run c w).1 = none → (⟨Op.mail cfg.AuthUser, none⟩ : Event) ∈ (run c w).2)) ∧
    (c.sender ≠ "" → mail.senderID = c.sender) := by
  obtain ⟨hcfg, hmail⟩ := initConfig_ok c cfg mail h
  have hs := run_shape c w cfg mail h
  constructor
  · intro hsender
    have hid : mail.senderID = cfg.AuthUser := by
      rw [hmail, hcfg]
      simp [hsender]
    refine ⟨hid, ?_, ?_, ?_⟩
    · intro ev hev s hop
      rw [← hid]
      exact (runTrace_mail_write hs ev hev).1 s hop
    · intro ev hev m hop
      rw [← hid, (runTrace_mail_write hs ev hev).2 m hop]
      exact BuildMessage_From mail
    · intro hr
      rw [hr] at hs
      obtain ⟨p, t, q, l, htr⟩ := runTrace_success hs
      rw [htr, ← hid]
      simp [sentEvents]
  · intro hsender
    rw [hmail]
    simp [hsender]

/-- The scenario of the specification: the sender flag is empty and the user
is "alice". -/
theorem sender_fallback_witness :
    exampleContext.sender = "" ∧ exampleMail.senderID = "alice" ∧
    (∀ ev ∈ (run exampleContext allOk).2, ∀ s, ev.op = Op.mail s → s = "alice") ∧
    (∀ ev ∈ (run exampleContext allOk).2, ∀ m, ev.op = Op.write m →
      ∃ rest, m = "From: " ++ "alice" ++ "\r\n" ++ rest) ∧
    ((run exampleContext allOk).1 = none →
      (⟨Op.mail "alice", none⟩ : Event) ∈ (run exampleContext allOk).2) :=
  ⟨rfl, (sender_fallback exampleContext allOk
      ⟨"alice", "secret", ⟨"smtp.example.com", "587"⟩⟩ exampleMail rfl).1 rfl⟩

/-! ## Quit -/

theorem sessionTrace_no_close {auth : PlainAuth} {mail : Mail} {e : GoError}
    {evs : List Event} (hs : SessionTrace auth mail (some e) evs)
    (hauth : evs.any authAccepted = true) :
    ∀ ev ∈ evs, closesConnection ev = false := by
  cases hs with
  | authFailed e1 => simp [authAccepted] at hauth
  | _ =>
    simp only [List.forall_mem_append, List.forall_mem_cons, List.forall_mem_map, okRcpt]
    simp [closesConnection]

theorem runTrace_no_close {c : Context} {cfg : Config} {mail : Mail} {e : GoError}
    {tr : List Event} (hs : RunTrace c cfg mail (some e) tr)
    (hauth : tr.any authAccepted = true) :
    ∀ ev ∈ tr, closesConnection ev = false := by
  cases hs with
  | tlsDialFailed hssl p e1 => simp [authAccepted] at hauth
  | newClientFailed hssl p e1 => simp [authAccepted] at hauth
  | smtpDialFailed hssl p e1 => simp [authAccepted] at hauth
  | overTLS hssl p _ evs hs =>
    have hauth2 : evs.any authAccepted = true := by
      simpa [authAccepted] using hauth
    have := sessionTrace_no_close hs hauth2
    simpa [closesConnection] using this
  | overStartTLS hssl p t _ evs hs =>
    have hauth2 : evs.any authAccepted = true := by
      simpa [authAccepted] using hauth
    have := sessionTrace_no_close hs hauth2
    simpa [closesConnection] using this

/-- C8 (as amended). When run returns nil, the last calls it issued are the
Close of the data writer, Quit on the client and the log line. When run
returns an error after the server has accepted Auth (the sender, a recipient
or the data phase is rejected, or the payload write or the Close of the data
writer fails), no Quit or Close has been issued on the connection. Nothing is
said of the exits where the dial, the client creation or Auth itself fails. -/
theorem quit_only_on_success (c : Context) (w : World) :
    ((run c w).1 = none →
      ∃ pre q l, (run c w).2 = pre ++ [⟨Op.closeWriter, none⟩, ⟨Op.quit, q⟩,
        ⟨Op.logPrintln "Mail sent successfully", l⟩]) ∧
    ((run c w).1 ≠ none → (run c w).2.any authAccepted = true →
      ∀ ev ∈ (run c w).2, closesConnection ev = false) := by
  cases h : initConfig c with
  | error e =>
    rw [run_of_initConfig_error c w e h]
    simp [authAccepted]
  | ok cm =>
    obtain ⟨cfg, mail⟩ := cm
    have hs := run_shape c w cfg mail h
    generalize (run c w).1 = r at hs ⊢
    generalize (run c w).2 = tr at hs ⊢
    constructor
    · intro hr
      subst hr
      obtain ⟨p, t, q, l, htr⟩ := runTrace_success hs
      refine ⟨connectEvents c cfg p t ++ ([⟨Op.auth (authOf cfg), none⟩,
        ⟨Op.mail mail.senderID, none⟩] ++ mail.toIds.map okRcpt
        ++ [⟨Op.data, none⟩, ⟨Op.write mail.BuildMessage, none⟩]), q, l, ?_⟩
      rw [htr]
      simp [sentEvents]
    · intro hr hauth
      cases r with
      | none => exact absurd rfl hr
      | some e => exact runTrace_no_close hs hauth

/-- The sender rejected after an accepted Auth: run returns the error and no
event of the trace is a Quit or a Close; and with a server that accepts
everything the trace ends with the Close of the writer, Quit and the log. -/
theorem quit_only_on_success_witness :
    (run exampleContext mailRejected).1 ≠ none ∧
    (run exampleContext mailRejected).2.any authAccepted = true ∧
    (∀ ev ∈ (run exampleContext mailRejected).2, closesConnection ev = false) ∧
    (run exampleContext allOk).1 = none ∧
    ∃ pre q l, (run exampleContext allOk).2 = pre ++ [⟨Op.closeWriter, none⟩, ⟨Op.quit, q⟩,
      ⟨Op.logPrintln "Mail sent successfully", l⟩] :=
  ⟨by decide, by decide,
   (quit_only_on_success exampleContext mailRejected).2 (by decide) (by decide),
   by decide,
   (quit_only_on_success exampleContext allOk).1 (by decide)⟩

end SmtpClient
